import Mathlib

/-!
Verification of the adaptive quiz engine core
(services/adaptive_learning_service.py, services/session_state_service.py,
utils/dynamodb_client.py, utils/error_handler.py).

The Python services are shallowly embedded as pure state-transition
functions.  The DynamoDB tables relevant to the claims are modelled as:
  * the wrong-answer table of one user: a list of records keyed by
    (userId, timestamp);
  * the session record: the top-level fields the adaptive service reads
    (currentQuestion, totalQuestions, answeredQuestions, correctAnswers,
    questionPool, version) together with the separate NESTED progress
    attribute that the db client's conditional advance writes — the
    top-level reads never consult it, and the write never touches the
    top-level fields other than version.
Randomness (answer shuffling, the 20 percent wrong-pool draw, the
selection tie-break factor) is passed in as explicit parameters, and
wall-clock instants are passed as natural-number timestamps.  Fractional
arithmetic of the difficulty model is carried out in the rationals.
The display-only ProgressIndicator payload and the per-(user, question)
progress-tracking table are not modelled: no claim refers to them.
-/

namespace AdaptiveQuiz

/-- One answer choice of a question (an element of the stored answers list). -/
structure Answer where
  id : String
  text : String
deriving DecidableEq, Repr

/-- A question record as read from the questions table.  The optional
difficulty mirrors the optional numeric attribute on the stored item. -/
structure Question where
  questionId : String
  question : String
  answers : List Answer
  correctAnswers : List String
  type : String
  language : String
  explanation : Option String
  difficulty : Option ℚ
deriving DecidableEq, Repr

/-- A wrong-answer record, keyed by (userId, timestamp).  The attempts log
holds (timestamp, correct) pairs.  shuffledAnswers is the frozen choice
order, absent until the first wrong-pool presentation stores one. -/
structure WrongAnswerItem where
  userId : String
  timestamp : Nat
  questionId : String
  sessionId : String
  remainingTries : Int
  lastAttemptAt : Nat
  shuffledAnswers : Option (List Answer)
  attempts : List (Nat × Bool)
deriving DecidableEq, Repr

/-- The progress payload the adaptive service computes on an advance and
the db client stores under the nested progress attribute. -/
structure ProgressUpdate where
  answeredQuestions : List String
  currentQuestion : Nat
  correctAnswers : Nat
deriving DecidableEq, Repr

/-- The session record as the adaptive learning service sees it.  The
top-level fields currentQuestion, totalQuestions, answeredQuestions,
correctAnswers and questionPool are what its reads
(session.get of the camel-case keys, defaulting) consult; progress is the
separate NESTED attribute that the db client's advance writes
(SET #prog = :progress) — the top-level reads never look inside it, and
the advance write never touches the top-level fields.  version is genuinely
top-level for both the read and the conditional write. -/
structure Session where
  sessionId : String
  userId : String
  currentQuestion : Nat
  totalQuestions : Nat
  answeredQuestions : List String
  correctAnswers : Nat
  questionPool : List String
  progress : Option ProgressUpdate
  version : Nat
deriving DecidableEq, Repr

/-- self.mastery_required_correct = 2 -/
def mastery_required_correct : Int := 2

/-- self.wrong_pool_selection_percentage = 0.20 -/
def wrong_pool_selection_percentage : ℚ := 20 / 100

/-- self.difficulty_adjustment_factor = 0.15 -/
def difficulty_adjustment_factor : ℚ := 15 / 100

/-- self.target_success_rate = 0.75 -/
def target_success_rate : ℚ := 75 / 100

/-- self.min_difficulty = 0.1 -/
def min_difficulty : ℚ := 1 / 10

/-- self.max_difficulty = 1.0 -/
def max_difficulty : ℚ := 1

/-- self.spaced_repetition_intervals = [1, 4, 24, 72, 168] (hours) -/
def spaced_repetition_intervals : List ℚ := [1, 4, 24, 72, 168]

/-- Python set equality of two id lists, written as mutual inclusion
(set(a) == set(b)). -/
def setEqString (a b : List String) : Bool :=
  a.all (fun x => b.contains x) && b.all (fun x => a.contains x)

/-- _validate_answer: the submitted selection is correct iff, as sets, it
equals the correctAnswers of the question. -/
def validate_answer (q : Question) (selected_answers : List String) : Bool :=
  setEqString q.correctAnswers selected_answers

/-- error_handler.validate_selected_answers: rejects an empty selection and
one with more than 10 entries, otherwise passes the list through.  Called
by the submit-answer handler before process_answer.  (The isinstance check
is a typing concern with no counterpart in a typed embedding.) -/
def validate_selected_answers (selected_answers : List String) :
    Except String (List String) :=
  if selected_answers.length = 0 then
    Except.error "At least one answer must be selected"
  else if selected_answers.length > 10 then
    Except.error "Too many answers selected"
  else
    Except.ok selected_answers

/-- DynamoDB put_item semantics on the wrong-answer table: replace the
record with the same (userId, timestamp) key if present, else append. -/
def put_wrong_item (pool : List WrongAnswerItem) (item : WrongAnswerItem) :
    List WrongAnswerItem :=
  if pool.any (fun w => w.userId == item.userId && w.timestamp == item.timestamp) then
    pool.map (fun w =>
      if w.userId == item.userId && w.timestamp == item.timestamp then item else w)
  else
    pool ++ [item]

/-- _add_to_wrong_pool: unconditional put of a fresh record with
remainingTries = mastery_required_correct and a one-element attempts log. -/
def add_to_wrong_pool (pool : List WrongAnswerItem)
    (user_id question_id session_id : String) (now : Nat) : List WrongAnswerItem :=
  put_wrong_item pool
    { userId := user_id
      timestamp := now
      questionId := question_id
      sessionId := session_id
      remainingTries := mastery_required_correct
      lastAttemptAt := now
      shuffledAnswers := none
      attempts := [(now, false)] }

/-- _update_wrong_answer_tries: SET remainingTries and lastAttemptAt on the
record with the given key. -/
def update_wrong_answer_tries (pool : List WrongAnswerItem)
    (user_id : String) (ts : Nat) (remaining_tries : Int) (now : Nat) :
    List WrongAnswerItem :=
  pool.map (fun w =>
    if w.userId == user_id && w.timestamp == ts then
      { w with remainingTries := remaining_tries, lastAttemptAt := now }
    else w)

/-- _reset_wrong_answer_tries: back to the full mastery_required_correct.
Only remainingTries and lastAttemptAt are written; the stored
shuffledAnswers (the frozen choice order) is left as it was. -/
def reset_wrong_answer_tries (pool : List WrongAnswerItem)
    (user_id : String) (ts : Nat) (now : Nat) : List WrongAnswerItem :=
  update_wrong_answer_tries pool user_id ts mastery_required_correct now

/-- _remove_from_wrong_pool: delete_item by (userId, timestamp). -/
def remove_from_wrong_pool (pool : List WrongAnswerItem)
    (user_id : String) (ts : Nat) : List WrongAnswerItem :=
  pool.filter (fun w => !(w.userId == user_id && w.timestamp == ts))

/-- _update_wrong_answer_shuffling: SET shuffledAnswers on the record with
the given key. -/
def update_wrong_answer_shuffling (pool : List WrongAnswerItem)
    (user_id : String) (ts : Nat) (shuffled_answers : List Answer) :
    List WrongAnswerItem :=
  pool.map (fun w =>
    if w.userId == user_id && w.timestamp == ts then
      { w with shuffledAnswers := some shuffled_answers }
    else w)

/-- _get_wrong_answer_record, translated as the source has it: the query in
the body is a placeholder (its own comment reads that the implementation
would use a GSI to find by questionId, simplified for this example) and on
every path the function returns None.  The wrong-answer table is taken as
an argument only to record what the lookup was meant to consult. -/
def get_wrong_answer_record (_pool : List WrongAnswerItem)
    (_user_id _question_id : String) : Option WrongAnswerItem :=
  none

/-- Number of active (remainingTries > 0) wrong-answer records of a user
for one question. -/
def countActive (pool : List WrongAnswerItem) (user_id question_id : String) : Nat :=
  (pool.filter (fun w =>
    w.userId == user_id && w.questionId == question_id &&
      decide (0 < w.remainingTries))).length

/-- dynamodb_client.update_session_progress_atomic: one conditional write,
predicated on version == expected_version; on success it stores the whole
payload under the NESTED progress attribute (SET #prog = :progress) and
bumps the top-level version by exactly 1 — the top-level fields the
adaptive service later reads (currentQuestion, answeredQuestions,
correctAnswers) are not written; on a conditional-check failure it returns
False and the record is untouched. -/
def db_update_session_progress_atomic (stored : Session)
    (expected_version : Nat) (pu : ProgressUpdate) : Bool × Session :=
  if stored.version == expected_version then
    (true,
      { stored with
        progress := some pu
        version := stored.version + 1 })
  else
    (false, stored)

/-- The delta computed by _update_session_progress from the session it has
just read. -/
def progress_update_of (s : Session) (question_id : String) (correct : Bool) :
    ProgressUpdate :=
  { answeredQuestions := s.answeredQuestions ++ [question_id]
    currentQuestion := s.currentQuestion + 1
    correctAnswers := s.correctAnswers + (if correct then 1 else 0) }

/-- _update_session_progress of the adaptive service: read the session,
compute the delta, attempt ONE conditional write with the version just
read; when the write reports a conflict the failure is logged and dropped
(the source notes that retry logic could be implemented there), so the
function returns normally either way.  readSession is the state returned
by the read, stored the state the conditional write runs against; they
differ exactly when a concurrent writer intervened. -/
def update_session_progress (readSession stored : Session)
    (question_id : String) (correct : Bool) : Bool × Session :=
  db_update_session_progress_atomic stored readSession.version
    (progress_update_of readSession question_id correct)

/-- _update_session_progress in an interference-free run: the session the
conditional write sees is the one just read, so the write succeeds. -/
def update_session_progress_seq (s : Session) (question_id : String)
    (correct : Bool) : Session :=
  (update_session_progress s s question_id correct).2

inductive NextAction
  | RETRY_SAME_QUESTION
  | NEXT_QUESTION
  | SESSION_COMPLETE
deriving DecidableEq, Repr

/-- QuestionResponse dataclass (without the display-only progress text). -/
structure QuestionResponse where
  question_id : String
  text : String
  answers : List Answer
  question_type : String
  language : String
  is_from_wrong_pool : Bool := false
  remaining_tries : Option Int := none
  shuffled : Bool := false
deriving DecidableEq, Repr

/-- AnswerResult dataclass (without the display-only ProgressIndicator). -/
structure AnswerResult where
  correct : Bool
  next_action : NextAction
  question : Option QuestionResponse := none
  explanation : Option String := none
  message : Option String := none
deriving DecidableEq, Repr

/-- The store state an answer submission reads and writes: the wrong-answer
records of the submitting user and the session record. -/
structure AnswerState where
  wrongPool : List WrongAnswerItem
  session : Session
deriving DecidableEq, Repr

/-- _handle_correct_answer: look up the wrong-answer record (the source
lookup always yields none), decrement or evict it when found, then advance
the session and answer NEXT_QUESTION. -/
def handle_correct_answer (st : AnswerState) (user_id question_id : String)
    (q : Question) (now : Nat) : AnswerState × AnswerResult :=
  let wrong_answer := get_wrong_answer_record st.wrongPool user_id question_id
  let pool' :=
    match wrong_answer with
    | some w =>
        let new_remaining := w.remainingTries - 1
        if 0 < new_remaining then
          update_wrong_answer_tries st.wrongPool user_id w.timestamp new_remaining now
        else
          remove_from_wrong_pool st.wrongPool user_id w.timestamp
    | none => st.wrongPool
  let session' := update_session_progress_seq st.session question_id true
  ({ wrongPool := pool', session := session' },
    { correct := true
      next_action := NextAction.NEXT_QUESTION
      explanation := q.explanation })

/-- _handle_wrong_answer: reset the record when the lookup finds one, else
add a fresh one; emit an immediate retry of the same question with
re-shuffled answers and do not touch the session. -/
def handle_wrong_answer (st : AnswerState)
    (session_id user_id question_id : String) (q : Question)
    (shuffle : List Answer → List Answer) (now : Nat) :
    AnswerState × AnswerResult :=
  let wrong_answer := get_wrong_answer_record st.wrongPool user_id question_id
  let pool' :=
    match wrong_answer with
    | some w => reset_wrong_answer_tries st.wrongPool user_id w.timestamp now
    | none => add_to_wrong_pool st.wrongPool user_id question_id session_id now
  let shuffled_answers := shuffle q.answers
  let retry_question : QuestionResponse :=
    { question_id := question_id
      text := q.question
      answers := shuffled_answers
      question_type := q.type
      language := q.language
      is_from_wrong_pool := false
      shuffled := true }
  ({ wrongPool := pool', session := st.session },
    { correct := false
      next_action := NextAction.RETRY_SAME_QUESTION
      question := some retry_question
      message := some "Incorrect. Try again with the shuffled answers." })

/-- process_answer: fetch the question, grade, then branch to the correct
or wrong handler.  The shuffle used for an immediate retry is the injected
random permutation. -/
def process_answer (st : AnswerState) (session_id user_id question_id : String)
    (selected_answers : List String) (questions : String → Option Question)
    (shuffle : List Answer → List Answer) (now : Nat) :
    Except String (AnswerState × AnswerResult) :=
  match questions question_id with
  | none => Except.error "Question not found"
  | some q =>
      if validate_answer q selected_answers then
        Except.ok (handle_correct_answer st user_id question_id q now)
      else
        Except.ok (handle_wrong_answer st session_id user_id question_id q shuffle now)

/-- _is_session_complete: the session is complete when currentQuestion has
reached totalQuestions; the wrong pool plays no part. -/
def is_session_complete (s : Session) : Bool :=
  decide (s.totalQuestions ≤ s.currentQuestion)

/-- Stable ascending insertion by timestamp (the wrong-answer table is read
in sort-key order). -/
def insertByTimestamp (x : WrongAnswerItem) :
    List WrongAnswerItem → List WrongAnswerItem
  | [] => [x]
  | y :: ys =>
      if x.timestamp ≤ y.timestamp then x :: y :: ys
      else y :: insertByTimestamp x ys

def sortByTimestamp : List WrongAnswerItem → List WrongAnswerItem
  | [] => []
  | x :: xs => insertByTimestamp x (sortByTimestamp xs)

/-- dynamodb_client.get_wrong_answers_sorted: query the user partition in
ascending timestamp order with the given Limit and the filter
remainingTries > 0.  DynamoDB applies Limit to the rows read BEFORE the
filter expression, hence take-then-filter. -/
def get_wrong_answers_sorted (pool : List WrongAnswerItem) (user_id : String)
    (limit : Nat) : List WrongAnswerItem :=
  ((sortByTimestamp (pool.filter (fun w => w.userId == user_id))).take limit).filter
    (fun w => decide (0 < w.remainingTries))

/-- One row of the recent-attempts view of the progress table (the fields
_calculate_user_performance reads). -/
structure AttemptRecord where
  correctAttempts : Nat
  timeSpent : ℚ
deriving DecidableEq, Repr

/-- The user-performance snapshot returned by _calculate_user_performance. -/
structure Performance where
  success_rate : ℚ
  average_time : ℚ
  difficulty_level : ℚ
  knowledge_state : ℚ
  confidence_score : ℚ
deriving DecidableEq, Repr

/-- _calculate_knowledge_state: decayed (0.9 per step) average of recent
correctness, newest first, clamped to [0, 1]. -/
def calculate_knowledge_state (recent_attempts : List AttemptRecord) : ℚ :=
  if recent_attempts = [] then 1 / 2
  else
    let pairs := recent_attempts.reverse.enum
    let weighted_score :=
      (pairs.map (fun p =>
        (9 / 10 : ℚ) ^ p.1 * (if 0 < p.2.correctAttempts then (1 : ℚ) else 0))).sum
    let total_weight := (pairs.map (fun p => (9 / 10 : ℚ) ^ p.1)).sum
    let knowledge_state :=
      if 0 < total_weight then weighted_score / total_weight else 1 / 2
    max (min knowledge_state 1) 0

/-- Number of sign changes in the correctness sequence, as counted by the
source loop over indices 1..n-1. -/
def countFlips : List Bool → Nat
  | a :: b :: rest => (if a ≠ b then 1 else 0) + countFlips (b :: rest)
  | _ => 0

/-- _calculate_confidence_score: response-time variance blended with
correctness consistency, clamped to [0, 1]. -/
def calculate_confidence_score (recent_attempts : List AttemptRecord) : ℚ :=
  if recent_attempts.length < 3 then 1 / 2
  else
    let times := recent_attempts.map (fun a => a.timeSpent)
    let mean_time := times.sum / (times.length : ℚ)
    let variance := (times.map (fun t => (t - mean_time) ^ 2)).sum / (times.length : ℚ)
    let correct_answers := recent_attempts.map (fun a => decide (0 < a.correctAttempts))
    let consistency :=
      1 - (countFlips correct_answers : ℚ) / ((correct_answers.length : ℚ) - 1)
    let time_confidence :=
      if 0 < mean_time then max 0 (1 - variance / mean_time ^ 2) else 1 / 2
    let confidence_score := time_confidence * (3 / 10) + consistency * (7 / 10)
    max (min confidence_score 1) 0

/-- _calculate_user_performance over the recent attempts of the user (the
window the service queries) and the stored per-user difficulty level.  An
empty window yields the neutral defaults. -/
def calculate_user_performance (recent_attempts : List AttemptRecord)
    (difficulty_level : ℚ) : Performance :=
  if recent_attempts = [] then
    { success_rate := 1 / 2
      average_time := 30
      difficulty_level := 1 / 2
      knowledge_state := 1 / 2
      confidence_score := 1 / 2 }
  else
    let correct_count :=
      (recent_attempts.filter (fun a => decide (0 < a.correctAttempts))).length
    let success_rate := (correct_count : ℚ) / (recent_attempts.length : ℚ)
    let times := recent_attempts.map (fun a => a.timeSpent)
    let average_time := times.sum / (times.length : ℚ)
    { success_rate := success_rate
      average_time := average_time
      difficulty_level := difficulty_level
      knowledge_state := calculate_knowledge_state recent_attempts
      confidence_score := calculate_confidence_score recent_attempts }

/-- _calculate_target_difficulty: above the band raise by the full factor
capped at max_difficulty, below the band lower by the SAME full factor
floored at min_difficulty, inside the band keep the current level. -/
def calculate_target_difficulty (performance : Performance) : ℚ :=
  let success_rate := performance.success_rate
  let current_difficulty := performance.difficulty_level
  if success_rate > target_success_rate + 1 / 10 then
    min (current_difficulty + difficulty_adjustment_factor) max_difficulty
  else if success_rate < target_success_rate - 1 / 10 then
    max (current_difficulty - difficulty_adjustment_factor) min_difficulty
  else
    current_difficulty

/-- _update_user_difficulty: adjusts the stored per-user level by the
factor, halved when decreasing, clamped to the difficulty range. -/
def update_user_difficulty (current_difficulty : ℚ) (decrease : Bool) : ℚ :=
  let adjustment := difficulty_adjustment_factor * (if decrease then 1 / 2 else 1)
  if decrease then max (current_difficulty - adjustment) min_difficulty
  else min (current_difficulty + adjustment) max_difficulty

/-- The spaced-repetition interval read as intervals[min(count - 1, 4)].
For an empty attempts log the Python index is -1, which selects the LAST
element of the schedule (168 hours). -/
def spacedIntervalFor (attempt_count : Nat) : ℚ :=
  if attempt_count = 0 then 168
  else spaced_repetition_intervals.getD (min (attempt_count - 1) 4) 168

/-- The readiness score of one wrong-answer record inside
_apply_spaced_repetition: capped age ratio plus an adjustment that grows
as the recent success rate falls. -/
def readiness_score (now : Nat) (w : WrongAnswerItem) (success_rate : ℚ) : ℚ :=
  let time_since_last : ℚ := ((now : ℚ) - (w.lastAttemptAt : ℚ)) / 3600
  let expected_interval := spacedIntervalFor w.attempts.length
  min (time_since_last / expected_interval) 2 + (1 - success_rate) * (1 / 2)

/-- Stable descending insertion by score: a later element is placed after
every earlier element of greater-or-equal score, matching the stable
Python sort with reverse=True. -/
def insertDescBy {α : Type} (x : α × ℚ) : List (α × ℚ) → List (α × ℚ)
  | [] => [x]
  | y :: ys => if y.2 ≤ x.2 then x :: y :: ys else y :: insertDescBy x ys

def sortDescBy {α : Type} : List (α × ℚ) → List (α × ℚ)
  | [] => []
  | x :: xs => insertDescBy x (sortDescBy xs)

/-- _apply_spaced_repetition: score every candidate, sort descending by
score (stable, so ties keep the oldest-first input order), return the
head. -/
def apply_spaced_repetition (wrong_answers : List WrongAnswerItem)
    (performance : Performance) (now : Nat) : Option WrongAnswerItem :=
  if wrong_answers = [] then none
  else
    let scored := wrong_answers.map
      (fun w => (w, readiness_score now w performance.success_rate))
    (sortDescBy scored).head?.map (fun p => p.1)

/-- _get_optimal_wrong_answer: up to 5 oldest active records, then the
spaced-repetition pick.  (The exception fallback to the single oldest
record fires only on store errors, which the embedding has none of.) -/
def get_optimal_wrong_answer (pool : List WrongAnswerItem) (user_id : String)
    (performance : Performance) (now : Nat) : Option WrongAnswerItem :=
  let wrong_answers := get_wrong_answers_sorted pool user_id 5
  if wrong_answers = [] then none
  else apply_spaced_repetition wrong_answers performance now

/-- _prepare_wrong_pool_question: serve the frozen choice order when the
record carries a non-empty one; otherwise shuffle the question answers,
persist that order on the record, and serve it.  Yields none exactly when
the question record is missing (the source would raise there). -/
def prepare_wrong_pool_question (pool : List WrongAnswerItem)
    (w : WrongAnswerItem) (questions : String → Option Question)
    (shuffle : List Answer → List Answer) :
    Option (List WrongAnswerItem × QuestionResponse) :=
  match questions w.questionId with
  | none => none
  | some q =>
      let freshly :=
        (update_wrong_answer_shuffling pool w.userId w.timestamp (shuffle q.answers),
          shuffle q.answers)
      let served :=
        match w.shuffledAnswers with
        | some l => if l.isEmpty then freshly else (pool, l)
        | none => freshly
      some (served.1,
        { question_id := q.questionId
          text := q.question
          answers := served.2
          question_type := q.type
          language := q.language
          is_from_wrong_pool := true
          remaining_tries := some w.remainingTries
          shuffled := true })

/-- One scored row of _get_questions_with_difficulty. -/
structure QuestionWithDifficulty where
  questionId : String
  difficulty : ℚ
deriving DecidableEq, Repr

/-- _calculate_question_difficulty from the historical attempts of a
question: inverse success rate, defaulting to 0.5 under 5 attempts,
normalized into [min_difficulty, max_difficulty]. -/
def calculate_question_difficulty (attempts : List AttemptRecord) : ℚ :=
  if attempts.length < 5 then 1 / 2
  else
    let correct_count := (attempts.filter (fun a => decide (0 < a.correctAttempts))).length
    let success_rate := (correct_count : ℚ) / (attempts.length : ℚ)
    let difficulty := 1 - success_rate
    max (min difficulty max_difficulty) min_difficulty

/-- _get_questions_with_difficulty: keep the candidates whose question
record exists, with the stored difficulty or the computed one. -/
def get_questions_with_difficulty (question_ids : List String)
    (questions : String → Option Question)
    (question_attempts : String → List AttemptRecord) :
    List QuestionWithDifficulty :=
  question_ids.filterMap (fun qid =>
    match questions qid with
    | none => none
    | some q =>
        some { questionId := qid
               difficulty :=
                 match q.difficulty with
                 | some d => d
                 | none => calculate_question_difficulty (question_attempts qid) })

/-- _select_adaptive_question: score by closeness to the target difficulty
times an injected random factor in [0.8, 1.2], stable-sort descending,
take the best. -/
def select_adaptive_question (qs : List QuestionWithDifficulty)
    (performance : Performance) (randFactor : String → ℚ) : Option String :=
  if qs = [] then none
  else
    let target_difficulty := calculate_target_difficulty performance
    let scored := qs.map (fun q =>
      let difficulty_diff := |q.difficulty - target_difficulty|
      let difficulty_score := 1 - min difficulty_diff 1
      (q.questionId, difficulty_score * randFactor q.questionId))
    (sortDescBy scored).head?.map (fun p => p.1)

/-- _get_next_adaptive_question: the regular-pool path; none when every
pool question is already answered (the caller then reports completion) or
when a looked-up record is missing. -/
def get_next_adaptive_question (session : Session) (performance : Performance)
    (questions : String → Option Question)
    (question_attempts : String → List AttemptRecord)
    (randFactor : String → ℚ) : Option QuestionResponse :=
  let answered := session.answeredQuestions
  let available := session.questionPool.filter (fun qid => !(answered.contains qid))
  if available = [] then none
  else
    let qwd := get_questions_with_difficulty available questions question_attempts
    match select_adaptive_question qwd performance randFactor with
    | none => none
    | some qid =>
        match questions qid with
        | none => none
        | some q =>
            some { question_id := q.questionId
                   text := q.question
                   answers := q.answers
                   question_type := q.type
                   language := q.language
                   is_from_wrong_pool := false }

/-- get_next_question: fail when the session is missing; answer none
(SessionComplete) as soon as _is_session_complete holds, before any look
at the wrong pool; otherwise draw the wrong-pool branch with the injected
20-percent coin and fall through to the regular adaptive path.  The second
component is the wrong-answer table after any freeze write. -/
def get_next_question (session : Option Session) (pool : List WrongAnswerItem)
    (user_id : String) (recent_attempts : List AttemptRecord)
    (difficulty_level : ℚ) (select_from_wrong_pool : Bool)
    (questions : String → Option Question)
    (question_attempts : String → List AttemptRecord)
    (shuffle : List Answer → List Answer) (randFactor : String → ℚ)
    (now : Nat) :
    Except String (Option QuestionResponse × List WrongAnswerItem) :=
  match session with
  | none => Except.error "Session not found"
  | some s =>
      if is_session_complete s then Except.ok (none, pool)
      else
        let performance := calculate_user_performance recent_attempts difficulty_level
        let regular :=
          match get_next_adaptive_question s performance questions
              question_attempts randFactor with
          | some resp => Except.ok (some resp, pool)
          | none => Except.ok (none, pool)
        if select_from_wrong_pool then
          match get_optimal_wrong_answer pool user_id performance now with
          | some w =>
              match prepare_wrong_pool_question pool w questions shuffle with
              | some pr => Except.ok (some pr.2, pr.1)
              | none => Except.error "Question not found"
          | none => regular
        else regular

/-- The outcome of session_state_service.update_session_progress_atomic. -/
inductive SSSResult
  | ok
  | sessionError (msg : String)
deriving DecidableEq, Repr

/-- session_state_service.update_session_progress_atomic: up to 3 attempts,
each re-reading the session and issuing a conditional write against the
version just read; conflict n says whether attempt n hits an
OptimisticLockError (a concurrent write landed between the re-read and the
conditional write).  After the third conflicted attempt a SessionError is
raised to the caller. -/
def sss_update_session_progress_atomic (conflict : Nat → Bool) : SSSResult :=
  if !conflict 0 then SSSResult.ok
  else if !conflict 1 then SSSResult.ok
  else if !conflict 2 then SSSResult.ok
  else SSSResult.sessionError
    "Failed to update session progress after 3 attempts due to concurrent modifications"

/-! Concrete fixtures used by the evaluation theorems and witnesses. -/

def ansA : Answer := { id := "a1", text := "Answer 1" }

def ansB : Answer := { id := "a2", text := "Answer 2" }

/-- A single-choice question whose sole correct choice is a2. -/
def qFix : Question :=
  { questionId := "q1"
    question := "What is X?"
    answers := [ansA, ansB]
    correctAnswers := ["a2"]
    type := "single_choice"
    language := "en"
    explanation := none
    difficulty := none }

/-- The questions table holding exactly qFix. -/
def questionsFix : String → Option Question :=
  fun qid => if qid == "q1" then some qFix else none

/-- An active wrong-answer record for q1 with the full 2 tries remaining. -/
def entryFix : WrongAnswerItem :=
  { userId := "u1"
    timestamp := 100
    questionId := "q1"
    sessionId := "s1"
    remainingTries := 2
    lastAttemptAt := 100
    shuffledAnswers := none
    attempts := [(100, false)] }

/-- A fresh session of three questions. -/
def sessionFix : Session :=
  { sessionId := "s1"
    userId := "u1"
    currentQuestion := 0
    totalQuestions := 3
    answeredQuestions := []
    correctAnswers := 0
    questionPool := ["q1", "q2", "q3"]
    progress := none
    version := 0 }

/-- C1.  The claim reads: a correct answer on a question holding an active
wrong-answer record with remaining r > 0 decrements the record to r - 1,
evicting it at 0, with next-action NextQuestion and a cursor advance.  On
the code the decrement can never happen: _get_wrong_answer_record returns
none on every input, so a correct submission on q1 while the active record
entryFix (remaining 2) is in the pool leaves the pool exactly as it was —
no write-back, no eviction — although next-action is NextQuestion as
claimed and the advance write succeeds, recording the bumped cursor in the
nested progress attribute and bumping the version. -/
theorem C1_active_entry_never_decremented :
    ∃ st r,
      process_answer { wrongPool := [entryFix], session := sessionFix }
          "s1" "u1" "q1" ["a2"] questionsFix id 300 = Except.ok (st, r)
      ∧ st.wrongPool = [entryFix]
      ∧ r.next_action = NextAction.NEXT_QUESTION
      ∧ st.session.progress = some (progress_update_of sessionFix "q1" true)
      ∧ st.session.version = sessionFix.version + 1 := by
  exact ⟨_, _, rfl, rfl, rfl, rfl, rfl⟩

/-- C2.  The claim reads: a second incorrect answer on a question with an
active record resets that record rather than creating a new one, so at
most one active record per (user, question) exists.  On the code the
lookup returns none both times, so the second incorrect submission adds a
SECOND record (fresh timestamp, remaining 2): after two incorrect answers
on q1 the user holds two active records for q1. -/
theorem C2_second_incorrect_adds_second_active_entry :
    ∃ st1 r1 st2 r2,
      process_answer { wrongPool := [], session := sessionFix }
          "s1" "u1" "q1" ["a1"] questionsFix id 100 = Except.ok (st1, r1)
      ∧ process_answer st1 "s1" "u1" "q1" ["a1"] questionsFix id 200
          = Except.ok (st2, r2)
      ∧ countActive st2.wrongPool "u1" "q1" = 2 := by
  exact ⟨_, _, _, _, rfl, rfl, rfl⟩

/-- A put whose (userId, timestamp) key is fresh appends the record. -/
theorem put_wrong_item_fresh (pool : List WrongAnswerItem) (item : WrongAnswerItem)
    (h : ∀ w ∈ pool, ¬ (w.userId = item.userId ∧ w.timestamp = item.timestamp)) :
    put_wrong_item pool item = pool ++ [item] := by
  unfold put_wrong_item
  rw [if_neg]
  intro hc
  rw [List.any_eq_true] at hc
  obtain ⟨w, hw, hpred⟩ := hc
  rw [Bool.and_eq_true, beq_iff_eq, beq_iff_eq] at hpred
  exact h w hw ⟨hpred.1, hpred.2⟩

/-- C3.  An incorrect answer on a question with no prior active
wrong-answer record (and a fresh timestamp) is graded incorrect, answers
RETRY_SAME_QUESTION carrying the same question with re-shuffled (permuted)
choices, leaves the session — hence the cursor — untouched, and appends a
record with remaining tries 2 (the mastery threshold). -/
theorem C3_first_wrong_adds_entry_and_retries
    (st : AnswerState) (session_id user_id question_id : String) (q : Question)
    (shuffle : List Answer → List Answer) (now : Nat)
    (hperm : ∀ l, (shuffle l).Perm l)
    (_hnoactive : ∀ w ∈ st.wrongPool,
      ¬ (w.questionId = question_id ∧ 0 < w.remainingTries))
    (hfresh : ∀ w ∈ st.wrongPool, ¬ (w.userId = user_id ∧ w.timestamp = now)) :
    (handle_wrong_answer st session_id user_id question_id q shuffle now).2.correct = false
    ∧ (handle_wrong_answer st session_id user_id question_id q shuffle now).2.next_action
        = NextAction.RETRY_SAME_QUESTION
    ∧ (∃ resp,
        (handle_wrong_answer st session_id user_id question_id q shuffle now).2.question
          = some resp
        ∧ resp.question_id = question_id
        ∧ resp.answers.Perm q.answers
        ∧ resp.shuffled = true)
    ∧ (handle_wrong_answer st session_id user_id question_id q shuffle now).1.session
        = st.session
    ∧ (handle_wrong_answer st session_id user_id question_id q shuffle now).1.wrongPool
        = st.wrongPool ++
          [{ userId := user_id
             timestamp := now
             questionId := question_id
             sessionId := session_id
             remainingTries := 2
             lastAttemptAt := now
             shuffledAnswers := none
             attempts := [(now, false)] }] := by
  refine ⟨rfl, rfl, ⟨_, rfl, rfl, hperm q.answers, rfl⟩, rfl, ?_⟩
  show add_to_wrong_pool st.wrongPool user_id question_id session_id now = _
  unfold add_to_wrong_pool
  rw [put_wrong_item_fresh _ _ hfresh]
  rfl

/-- C3 witness: the theorem applied to the empty wrong pool, the fixture
question and the identity shuffle. -/
theorem C3_witness :
    (handle_wrong_answer { wrongPool := [], session := sessionFix }
        "s1" "u1" "q1" qFix id 100).2.correct = false
    ∧ (handle_wrong_answer { wrongPool := [], session := sessionFix }
        "s1" "u1" "q1" qFix id 100).2.next_action = NextAction.RETRY_SAME_QUESTION
    ∧ (∃ resp,
        (handle_wrong_answer { wrongPool := [], session := sessionFix }
          "s1" "u1" "q1" qFix id 100).2.question = some resp
        ∧ resp.question_id = "q1"
        ∧ resp.answers.Perm qFix.answers
        ∧ resp.shuffled = true)
    ∧ (handle_wrong_answer { wrongPool := [], session := sessionFix }
        "s1" "u1" "q1" qFix id 100).1.session = sessionFix
    ∧ (handle_wrong_answer { wrongPool := [], session := sessionFix }
        "s1" "u1" "q1" qFix id 100).1.wrongPool
        = [] ++
          [{ userId := "u1"
             timestamp := 100
             questionId := "q1"
             sessionId := "s1"
             remainingTries := 2
             lastAttemptAt := 100
             shuffledAnswers := none
             attempts := [(100, false)] }] :=
  C3_first_wrong_adds_entry_and_retries
    { wrongPool := [], session := sessionFix } "s1" "u1" "q1" qFix id 100
    (fun l => List.Perm.refl l) (by simp) (by simp)

/-- Python set equality of id lists is equality of the deduplicated
order-free contents. -/
theorem setEqString_iff (a b : List String) :
    setEqString a b = true ↔ a.toFinset = b.toFinset := by
  unfold setEqString
  rw [Bool.and_eq_true, List.all_eq_true, List.all_eq_true]
  constructor
  · rintro ⟨h1, h2⟩
    apply Finset.ext
    intro x
    simp only [List.mem_toFinset]
    constructor
    · intro hx
      have := h1 x hx
      simpa using this
    · intro hx
      have := h2 x hx
      simpa using this
  · intro h
    constructor
    · intro x hx
      have hxb : x ∈ b := by
        have := Finset.ext_iff.mp h x
        simp only [List.mem_toFinset] at this
        exact this.mp hx
      simpa using hxb
    · intro x hx
      have hxa : x ∈ a := by
        have := Finset.ext_iff.mp h x
        simp only [List.mem_toFinset] at this
        exact this.mpr hx
      simpa using hxa

/-- C4.  Grading is exact set comparison: a submission is graded correct
iff its deduplicated, order-free content equals the correct set of the
question; and an empty selection is rejected by the input validator that
the submit handler runs before grading. -/
theorem C4_grading_exact_set_match (q : Question) (selected_answers : List String) :
    (validate_answer q selected_answers = true
      ↔ selected_answers.toFinset = q.correctAnswers.toFinset)
    ∧ validate_selected_answers []
        = Except.error "At least one answer must be selected" := by
  constructor
  · rw [validate_answer, setEqString_iff]
    exact ⟨fun h => h.symm, fun h => h.symm⟩
  · rfl

/-- C4 witness: a duplicated single-element selection on the fixture
question grades correct, a superset selection grades incorrect, and the
empty selection errors. -/
theorem C4_witness :
    validate_answer qFix ["a2", "a2"] = true
    ∧ validate_answer qFix ["a2", "a1"] = false
    ∧ validate_selected_answers []
        = Except.error "At least one answer must be selected" := by
  refine ⟨(C4_grading_exact_set_match qFix ["a2", "a2"]).1.mpr (by decide), ?_,
    (C4_grading_exact_set_match qFix []).2⟩
  have h := (C4_grading_exact_set_match qFix ["a2", "a1"]).1
  by_contra hne
  have : validate_answer qFix ["a2", "a1"] = true := by
    revert hne
    cases validate_answer qFix ["a2", "a1"] <;> simp
  exact absurd (h.mp this) (by decide)

/-- A session whose cursor has reached its planned total. -/
def sessionDone : Session :=
  { sessionFix with
    currentQuestion := 1
    totalQuestions := 1
    answeredQuestions := ["q1"]
    questionPool := ["q1"] }

/-- A session that is not cursor-complete but whose regular pool is
drained: the one pool question is already in answeredQuestions. -/
def sessionDrained : Session :=
  { sessionFix with
    currentQuestion := 0
    totalQuestions := 1
    answeredQuestions := ["q1"]
    questionPool := ["q1"] }

/-- C5 counterexample.  The claim reads: SessionComplete is returned only
when the cursor has reached the planned total AND no active wrong-answer
records remain.  On the code, with the cursor at the total and the active
record entryFix still in the pool — and even with the random draw landing
on the wrong pool — get_next_question answers none (SessionComplete)
without consulting the wrong pool. -/
theorem C5_counterexample :
    get_next_question (some sessionDone) [entryFix] "u1" [] (1 / 2) true
        questionsFix (fun _ => []) id (fun _ => 1) 7200
      = Except.ok (none, [entryFix])
    ∧ 0 < countActive [entryFix] "u1" "q1" :=
  ⟨rfl, by decide⟩

/-- C5 amended.  _is_session_complete is exactly cursor ≥ planned total;
whenever it holds get_next_question answers SessionComplete regardless of
the wrong pool, and on a regular (non-wrong-pool) draw with a drained
regular pool it also answers SessionComplete, again regardless of the
wrong pool — there is no wrong-pool fallback. -/
theorem C5_completion_ignores_wrong_pool
    (s : Session) (pool : List WrongAnswerItem) (user_id : String)
    (recent_attempts : List AttemptRecord) (difficulty_level : ℚ) (sw : Bool)
    (questions : String → Option Question)
    (question_attempts : String → List AttemptRecord)
    (shuffle : List Answer → List Answer) (randFactor : String → ℚ) (now : Nat) :
    (is_session_complete s = true ↔ s.totalQuestions ≤ s.currentQuestion)
    ∧ (is_session_complete s = true →
        get_next_question (some s) pool user_id recent_attempts difficulty_level
            sw questions question_attempts shuffle randFactor now
          = Except.ok (none, pool))
    ∧ (is_session_complete s = false →
        s.questionPool.filter (fun qid => !(s.answeredQuestions.contains qid)) = [] →
        get_next_question (some s) pool user_id recent_attempts difficulty_level
            false questions question_attempts shuffle randFactor now
          = Except.ok (none, pool)) := by
  refine ⟨?_, ?_, ?_⟩
  · exact decide_eq_true_iff
  · intro h
    simp [get_next_question, h]
  · intro h1 h2
    simp only [List.filter_eq_nil_iff, Bool.not_eq_true', List.contains_eq_any_beq,
      List.any_beq] at h2
    simp at h2
    simp [get_next_question, get_next_adaptive_question, h1]
    rw [if_pos h2]

/-- C5 witness: the amended theorem applied to a cursor-complete session
with an active record, and to a non-complete session whose regular pool is
drained, under a regular draw. -/
theorem C5_witness :
    get_next_question (some sessionDone) [] "u1" [] (1 / 2) true questionsFix
        (fun _ => []) id (fun _ => 1) 7200 = Except.ok (none, [])
    ∧ get_next_question (some sessionDrained) [entryFix] "u1" [] (1 / 2) false
        questionsFix (fun _ => []) id (fun _ => 1) 7200
      = Except.ok (none, [entryFix]) := by
  constructor
  · exact (C5_completion_ignores_wrong_pool sessionDone [] "u1" [] (1 / 2) true
      questionsFix (fun _ => []) id (fun _ => 1) 7200).2.1 rfl
  · exact (C5_completion_ignores_wrong_pool sessionDrained [entryFix] "u1" []
      (1 / 2) false questionsFix (fun _ => []) id (fun _ => 1) 7200).2.2 rfl rfl

/-- sessionFix after one concurrent write landed. -/
def sessionV1 : Session := { sessionFix with version := 1 }

/-- C6 counterexample.  The claim reads: on conflict the answer-submission
advance re-reads and retries up to 3 times and finally surfaces a
Concurrent failure.  The advance the answer path actually runs
(_update_session_progress calling the db client) makes ONE conditional
attempt: with a read version 0 against a stored version 1 it returns a
plain (false, unchanged session) — no retry, no surfaced failure (the
source logs a warning and returns, noting retry logic could be added). -/
theorem C6_counterexample :
    sessionFix.version ≠ sessionV1.version
    ∧ update_session_progress sessionFix sessionV1 "q1" true = (false, sessionV1) :=
  ⟨by decide, rfl⟩

/-- C6 amended.  The conditional write itself bumps version by exactly 1
on success, so version strictly increases on every successful advance; the
session-state service variant (update_session_progress_atomic of
session_state_service) does retry up to 3 times and raises after 3
conflicts; but the answer-submission path performs a single attempt and
silently drops the conflict. -/
theorem C6_version_bump_and_retry_paths
    (stored : Session) (expected_version : Nat) (pu : ProgressUpdate)
    (conflict : Nat → Bool) (readSession storedW : Session)
    (question_id : String) (correct : Bool) :
    ((db_update_session_progress_atomic stored expected_version pu).1 = true →
      (db_update_session_progress_atomic stored expected_version pu).2.version
        = stored.version + 1)
    ∧ (conflict 0 = true → conflict 1 = true → conflict 2 = true →
        sss_update_session_progress_atomic conflict
          = SSSResult.sessionError
            "Failed to update session progress after 3 attempts due to concurrent modifications")
    ∧ (conflict 0 = false → sss_update_session_progress_atomic conflict = SSSResult.ok)
    ∧ (readSession.version ≠ storedW.version →
        update_session_progress readSession storedW question_id correct
          = (false, storedW)) := by
  refine ⟨?_, ?_, ?_, ?_⟩
  · unfold db_update_session_progress_atomic
    by_cases hv : stored.version = expected_version
    · simp [hv]
    · simp [hv]
  · intro h0 h1 h2
    simp [sss_update_session_progress_atomic, h0, h1, h2]
  · intro h0
    simp [sss_update_session_progress_atomic, h0]
  · intro h
    unfold update_session_progress db_update_session_progress_atomic
    have hnc : ¬ (storedW.version == readSession.version) = true := by
      simp only [beq_iff_eq]
      exact fun heq => h heq.symm
    rw [if_neg hnc]

/-- C6 witness: the amended theorem applied to a concrete successful
write, an always-conflicting run, a conflict-free run, and a single
dropped conflict. -/
theorem C6_witness :
    (db_update_session_progress_atomic sessionFix 0
        (progress_update_of sessionFix "q1" true)).2.version = sessionFix.version + 1
    ∧ sss_update_session_progress_atomic (fun _ => true)
        = SSSResult.sessionError
          "Failed to update session progress after 3 attempts due to concurrent modifications"
    ∧ sss_update_session_progress_atomic (fun _ => false) = SSSResult.ok
    ∧ update_session_progress sessionFix sessionV1 "q2" false = (false, sessionV1) := by
  refine ⟨?_, ?_, ?_, ?_⟩
  · exact (C6_version_bump_and_retry_paths sessionFix 0
      (progress_update_of sessionFix "q1" true) (fun _ => true) sessionFix sessionV1
      "q2" false).1 rfl
  · exact (C6_version_bump_and_retry_paths sessionFix 0
      (progress_update_of sessionFix "q1" true) (fun _ => true) sessionFix sessionV1
      "q2" false).2.1 rfl rfl rfl
  · exact (C6_version_bump_and_retry_paths sessionFix 0
      (progress_update_of sessionFix "q1" true) (fun _ => false) sessionFix sessionV1
      "q2" false).2.2.1 rfl
  · exact (C6_version_bump_and_retry_paths sessionFix 0
      (progress_update_of sessionFix "q1" true) (fun _ => true) sessionFix sessionV1
      "q2" false).2.2.2 (by decide)

/-- An active record for q1 carrying a frozen choice order and one
remaining try. -/
def entryFrozen : WrongAnswerItem :=
  { entryFix with remainingTries := 1, shuffledAnswers := some [ansB, ansA] }

/-- C7 counterexample.  The claim reads: on reset (an incorrect answer to
an active entry) the frozen order is recomputed.  The reset helper writes
only remainingTries and lastAttemptAt: resetting entryFrozen bumps its
remaining tries back to 2 but leaves the stored frozen order exactly as it
was — nothing is recomputed. -/
theorem C7_counterexample :
    (reset_wrong_answer_tries [entryFrozen] "u1" 100 500).map
        (fun w => (w.remainingTries, w.shuffledAnswers))
      = [(2, some [ansB, ansA])] := by
  rfl

/-- C7 amended.  Every wrong-pool presentation is a permutation of the
stored question answers (given that stored frozen orders are permutations
and the shuffle permutes); a record with a non-empty frozen order is
served exactly that order with NO store write, so repeated presentations
are identical; a record without one is served the fresh shuffle, which is
persisted as the frozen order.  Reset, however, does not touch the frozen
order (see the counterexample). -/
theorem C7_frozen_permutation_stable
    (pool : List WrongAnswerItem) (w : WrongAnswerItem) (q : Question)
    (questions : String → Option Question) (shuffle : List Answer → List Answer)
    (hq : questions w.questionId = some q)
    (hperm : ∀ l, (shuffle l).Perm l)
    (hfrozen : ∀ l, w.shuffledAnswers = some l → l.Perm q.answers) :
    (∃ pr, prepare_wrong_pool_question pool w questions shuffle = some pr
        ∧ pr.2.answers.Perm q.answers
        ∧ pr.2.is_from_wrong_pool = true
        ∧ pr.2.question_id = q.questionId)
    ∧ (∀ l, w.shuffledAnswers = some l → l ≠ [] →
        prepare_wrong_pool_question pool w questions shuffle
          = some (pool,
            { question_id := q.questionId
              text := q.question
              answers := l
              question_type := q.type
              language := q.language
              is_from_wrong_pool := true
              remaining_tries := some w.remainingTries
              shuffled := true }))
    ∧ (w.shuffledAnswers = none →
        prepare_wrong_pool_question pool w questions shuffle
          = some (update_wrong_answer_shuffling pool w.userId w.timestamp
                (shuffle q.answers),
              { question_id := q.questionId
                text := q.question
                answers := shuffle q.answers
                question_type := q.type
                language := q.language
                is_from_wrong_pool := true
                remaining_tries := some w.remainingTries
                shuffled := true })) := by
  have hfreeze : w.shuffledAnswers = none →
      prepare_wrong_pool_question pool w questions shuffle
        = some (update_wrong_answer_shuffling pool w.userId w.timestamp
              (shuffle q.answers),
            { question_id := q.questionId
              text := q.question
              answers := shuffle q.answers
              question_type := q.type
              language := q.language
              is_from_wrong_pool := true
              remaining_tries := some w.remainingTries
              shuffled := true }) := by
    intro h
    simp only [prepare_wrong_pool_question, hq, h]
  have hstable : ∀ l, w.shuffledAnswers = some l → l ≠ [] →
      prepare_wrong_pool_question pool w questions shuffle
        = some (pool,
          { question_id := q.questionId
            text := q.question
            answers := l
            question_type := q.type
            language := q.language
            is_from_wrong_pool := true
            remaining_tries := some w.remainingTries
            shuffled := true }) := by
    intro l hl hne
    simp only [prepare_wrong_pool_question, hq, hl]
    cases l with
    | nil => exact absurd rfl hne
    | cons a as => rfl
  refine ⟨?_, hstable, hfreeze⟩
  cases hsh : w.shuffledAnswers with
  | none => exact ⟨_, hfreeze hsh, hperm q.answers, rfl, rfl⟩
  | some l =>
      cases l with
      | nil =>
          have hempty : prepare_wrong_pool_question pool w questions shuffle
              = some (update_wrong_answer_shuffling pool w.userId w.timestamp
                    (shuffle q.answers),
                  { question_id := q.questionId
                    text := q.question
                    answers := shuffle q.answers
                    question_type := q.type
                    language := q.language
                    is_from_wrong_pool := true
                    remaining_tries := some w.remainingTries
                    shuffled := true }) := by
            simp only [prepare_wrong_pool_question, hq, hsh]
            rfl
          exact ⟨_, hempty, hperm q.answers, rfl, rfl⟩
      | cons a as =>
          exact ⟨_, hstable (a :: as) hsh (by simp), hfrozen (a :: as) hsh, rfl, rfl⟩

/-- C7 witness: the amended theorem applied to the frozen fixture record
with the identity shuffle, yielding the stored order unchanged and the
pool untouched. -/
theorem C7_witness :
    prepare_wrong_pool_question [entryFrozen] entryFrozen questionsFix id
      = some ([entryFrozen],
        { question_id := "q1"
          text := "What is X?"
          answers := [ansB, ansA]
          question_type := "single_choice"
          language := "en"
          is_from_wrong_pool := true
          remaining_tries := some 1
          shuffled := true }) := by
  exact (C7_frozen_permutation_stable [entryFrozen] entryFrozen qFix questionsFix id
    rfl (fun l => List.Perm.refl l)
    (by intro l hl; cases hl; decide)).2.1 [ansB, ansA] rfl (by simp)

/-- An interference-free advance always succeeds: the payload computed
from the session is stored under the nested progress attribute and the
version is bumped; the top-level fields are untouched. -/
theorem update_session_progress_seq_eq (s : Session)
    (question_id : String) (correct : Bool) :
    update_session_progress_seq s question_id correct
      = { s with
          progress := some (progress_update_of s question_id correct)
          version := s.version + 1 } := by
  unfold update_session_progress_seq update_session_progress
    db_update_session_progress_atomic
  simp

/-- C8 counterexample.  The claim reads: replaying the same
(session_id, question_id, selected, time_s) never produces two wrong-pool
adds for the question (and at most one cursor advance results).  On the
code, replaying the identical incorrect submission — processed one instant
later, as after a Timeout — adds a second record: the add is an
unconditional put under a fresh timestamp and the record lookup returns
none, so two active wrong-pool records for q1 result. -/
theorem C8_counterexample :
    ∃ st1 r1 st2 r2,
      process_answer { wrongPool := [], session := sessionFix }
          "s1" "u1" "q1" ["a1"] questionsFix id 100 = Except.ok (st1, r1)
      ∧ process_answer st1 "s1" "u1" "q1" ["a1"] questionsFix id 101
          = Except.ok (st2, r2)
      ∧ countActive st2.wrongPool "u1" "q1" = 2 := by
  exact ⟨_, _, _, _, rfl, rfl, rfl⟩

/-- C8 amended.  A replayed submission is processed as a fresh one, with
no replay guard anywhere: two incorrect submissions at distinct fresh
instants add two active records for the question.  A replayed correct
submission does not accumulate the cursor, but only by accident of the
schema mismatch: each advance stores its payload under the nested progress
attribute while re-reading the TOP-LEVEL cursor, which the write never
touches — so both advances store the same payload (cursor old+1, computed
from the unchanged top-level fields both times) while the version is
bumped twice. -/
theorem C8_replay_processed_again
    (st : AnswerState) (session_id user_id question_id : String) (q : Question)
    (shuffle : List Answer → List Answer) (now1 now2 : Nat)
    (hfresh1 : ∀ w ∈ st.wrongPool, ¬ (w.userId = user_id ∧ w.timestamp = now1))
    (hfresh2 : ∀ w ∈ st.wrongPool, ¬ (w.userId = user_id ∧ w.timestamp = now2))
    (hne : now1 ≠ now2) :
    countActive
        (handle_wrong_answer (handle_wrong_answer st session_id user_id question_id
              q shuffle now1).1
          session_id user_id question_id q shuffle now2).1.wrongPool user_id question_id
      = countActive st.wrongPool user_id question_id + 2
    ∧ (handle_correct_answer (handle_correct_answer st user_id question_id q now1).1
          user_id question_id q now2).1.session.progress
        = some (progress_update_of st.session question_id true)
    ∧ (handle_correct_answer (handle_correct_answer st user_id question_id q now1).1
          user_id question_id q now2).1.session.version = st.session.version + 2
    ∧ (handle_correct_answer (handle_correct_answer st user_id question_id q now1).1
          user_id question_id q now2).1.session.currentQuestion
        = st.session.currentQuestion := by
  have hsess : ∀ (st' : AnswerState) (n : Nat),
      (handle_correct_answer st' user_id question_id q n).1.session
        = update_session_progress_seq st'.session question_id true :=
    fun _ _ => rfl
  refine ⟨?_, ?_, ?_, ?_⟩
  · have hpool : ∀ (st' : AnswerState) (n : Nat),
        (handle_wrong_answer st' session_id user_id question_id q shuffle n).1.wrongPool
          = add_to_wrong_pool st'.wrongPool user_id question_id session_id n :=
      fun _ _ => rfl
    rw [hpool, hpool]
    unfold add_to_wrong_pool
    rw [put_wrong_item_fresh st.wrongPool _ hfresh1]
    rw [put_wrong_item_fresh]
    · unfold countActive
      rw [List.append_assoc, List.filter_append, List.length_append]
      simp [mastery_required_correct]
    · intro w hw
      rcases List.mem_append.mp hw with h | h
      · exact hfresh2 w h
      · rcases List.mem_singleton.mp h with rfl
        intro hcon
        exact hne (by simpa using hcon.2)
  · rw [hsess, hsess, update_session_progress_seq_eq, update_session_progress_seq_eq]
    simp [progress_update_of]
  · rw [hsess, hsess, update_session_progress_seq_eq, update_session_progress_seq_eq]
  · rw [hsess, hsess, update_session_progress_seq_eq, update_session_progress_seq_eq]

/-- C8 witness: the amended theorem applied to the empty pool and fixture
session at instants 100 and 200. -/
theorem C8_witness :
    countActive
        (handle_wrong_answer
            (handle_wrong_answer { wrongPool := [], session := sessionFix }
              "s1" "u1" "q1" qFix id 100).1
          "s1" "u1" "q1" qFix id 200).1.wrongPool "u1" "q1"
      = countActive [] "u1" "q1" + 2
    ∧ (handle_correct_answer
          (handle_correct_answer { wrongPool := [], session := sessionFix }
            "u1" "q1" qFix 100).1
          "u1" "q1" qFix 200).1.session.progress
        = some (progress_update_of sessionFix "q1" true)
    ∧ (handle_correct_answer
          (handle_correct_answer { wrongPool := [], session := sessionFix }
            "u1" "q1" qFix 100).1
          "u1" "q1" qFix 200).1.session.version = sessionFix.version + 2
    ∧ (handle_correct_answer
          (handle_correct_answer { wrongPool := [], session := sessionFix }
            "u1" "q1" qFix 100).1
          "u1" "q1" qFix 200).1.session.currentQuestion
        = sessionFix.currentQuestion := by
  exact C8_replay_processed_again { wrongPool := [], session := sessionFix }
    "s1" "u1" "q1" qFix id 100 200 (by simp) (by simp) (by decide)

/-- A struggling user: no recent successes, current target 0.65. -/
def perfStruggling : Performance :=
  { success_rate := 0
    average_time := 30
    difficulty_level := 13 / 20
    knowledge_state := 1 / 2
    confidence_score := 1 / 2 }

/-- A high performer at the default target. -/
def perfHigh : Performance :=
  { success_rate := 9 / 10
    average_time := 30
    difficulty_level := 1 / 2
    knowledge_state := 1 / 2
    confidence_score := 1 / 2 }

/-- An in-band performer at the default target. -/
def perfMid : Performance :=
  { success_rate := 3 / 4
    average_time := 30
    difficulty_level := 1 / 2
    knowledge_state := 1 / 2
    confidence_score := 1 / 2 }

/-- C9 counterexample.  The claim reads: below the band the target becomes
max(0.1, t - 0.5·Δ), so 0.575 from t = 0.65.  The success-rate-driven
computation decrements by the FULL Δ = 0.15: with success rate 0 and
target 0.65 it yields 0.5, not 0.575. -/
theorem C9_counterexample :
    calculate_target_difficulty perfStruggling = 1 / 2
    ∧ (1 / 2 : ℚ) ≠ 23 / 40 := by
  constructor
  · norm_num [calculate_target_difficulty, perfStruggling, target_success_rate,
      difficulty_adjustment_factor, min_difficulty, max_difficulty, max_def]
  · norm_num

/-- C9 amended.  Below the band (s < 0.65) the target drops by the full
Δ = 0.15 floored at 0.1; above the band (s > 0.85) it rises by Δ capped at
1.0; inside the band it is unchanged.  The halved decrement 0.5·Δ = 0.075
exists only in _update_user_difficulty, whose decrease branch is driven by
an explicit flag rather than the success-rate test. -/
theorem C9_target_difficulty_full_step (p : Performance) :
    (p.success_rate < 13 / 20 →
      calculate_target_difficulty p = max (p.difficulty_level - 3 / 20) (1 / 10))
    ∧ (p.success_rate > 17 / 20 →
      calculate_target_difficulty p = min (p.difficulty_level + 3 / 20) 1)
    ∧ (13 / 20 ≤ p.success_rate → p.success_rate ≤ 17 / 20 →
      calculate_target_difficulty p = p.difficulty_level)
    ∧ (∀ d : ℚ, update_user_difficulty d true = max (d - 3 / 40) (1 / 10)) := by
  have hlo : target_success_rate - 1 / 10 = (13 : ℚ) / 20 := by
    norm_num [target_success_rate]
  have hhi : target_success_rate + 1 / 10 = (17 : ℚ) / 20 := by
    norm_num [target_success_rate]
  refine ⟨?_, ?_, ?_, ?_⟩
  · intro h
    simp only [calculate_target_difficulty, hlo, hhi]
    rw [if_neg (by linarith), if_pos h]
    norm_num [difficulty_adjustment_factor, min_difficulty]
  · intro h
    simp only [calculate_target_difficulty, hlo, hhi]
    rw [if_pos h]
    norm_num [difficulty_adjustment_factor, max_difficulty]
  · intro h1 h2
    simp only [calculate_target_difficulty, hlo, hhi]
    rw [if_neg (by linarith), if_neg (by linarith)]
  · intro d
    simp only [update_user_difficulty, if_pos]
    norm_num [difficulty_adjustment_factor, min_difficulty]

/-- C9 witness: the amended theorem applied to concrete struggling,
high-performing and in-band snapshots, and to a concrete stored level. -/
theorem C9_witness :
    calculate_target_difficulty perfStruggling = max ((13 : ℚ) / 20 - 3 / 20) (1 / 10)
    ∧ calculate_target_difficulty perfHigh = min ((1 : ℚ) / 2 + 3 / 20) 1
    ∧ calculate_target_difficulty perfMid = (1 : ℚ) / 2
    ∧ update_user_difficulty (13 / 20) true = max ((13 : ℚ) / 20 - 3 / 40) (1 / 10) := by
  refine ⟨?_, ?_, ?_, ?_⟩
  · exact (C9_target_difficulty_full_step perfStruggling).1 (by norm_num [perfStruggling])
  · exact (C9_target_difficulty_full_step perfHigh).2.1 (by norm_num [perfHigh])
  · exact (C9_target_difficulty_full_step perfMid).2.2.1
      (by norm_num [perfMid]) (by norm_num [perfMid])
  · exact (C9_target_difficulty_full_step perfMid).2.2.2 (13 / 20)

/-- C10.  The immediate-retry question returned by the wrong-answer
handler is marked is_from_wrong_pool = false with no remaining_tries (the
source comments the retry is not from the wrong pool), although the
question was just added to or reset in the pool; only a question served by
the wrong-pool draw carries is_from_wrong_pool = true together with the
remaining tries of its record. -/
theorem C10_retry_vs_wrong_pool_marking
    (st : AnswerState) (session_id user_id question_id : String) (q : Question)
    (shuffle : List Answer → List Answer) (now : Nat)
    (pool : List WrongAnswerItem) (w : WrongAnswerItem)
    (questions : String → Option Question) (q2 : Question)
    (hq : questions w.questionId = some q2) :
    ((handle_wrong_answer st session_id user_id question_id q shuffle now).2.question.map
        (fun r => (r.is_from_wrong_pool, r.remaining_tries))) = some (false, none)
    ∧ ((prepare_wrong_pool_question pool w questions shuffle).map
        (fun pr => (pr.2.is_from_wrong_pool, pr.2.remaining_tries)))
      = some (true, some w.remainingTries) := by
  constructor
  · rfl
  · cases hsh : w.shuffledAnswers with
    | none =>
        simp only [prepare_wrong_pool_question, hq, hsh]
        rfl
    | some l =>
        cases l with
        | nil =>
            simp only [prepare_wrong_pool_question, hq, hsh]
            rfl
        | cons a as =>
            simp only [prepare_wrong_pool_question, hq, hsh]
            rfl

/-- C10 witness: the theorem applied to the fixture question and the
fixture record (2 tries remaining). -/
theorem C10_witness :
    ((handle_wrong_answer { wrongPool := [], session := sessionFix }
        "s1" "u1" "q1" qFix id 100).2.question.map
        (fun r => (r.is_from_wrong_pool, r.remaining_tries))) = some (false, none)
    ∧ ((prepare_wrong_pool_question [entryFix] entryFix questionsFix id).map
        (fun pr => (pr.2.is_from_wrong_pool, pr.2.remaining_tries)))
      = some (true, some entryFix.remainingTries) :=
  C10_retry_vs_wrong_pool_marking { wrongPool := [], session := sessionFix }
    "s1" "u1" "q1" qFix id 100 [entryFix] entryFix questionsFix qFix rfl

end AdaptiveQuiz
